import Mathlib

/-!
Verification of the nova-chatmix HID control client (src/nova-chatmix.py).

The Python source is shallowly embedded: each relevant method becomes an
executable Lean definition over plain data (bytes are Nat, byte strings are
List Nat, Python exceptions are an explicit PyError carried in Except).
Stateful methods are modelled as explicit state-passing functions over a
SessionState record holding the class-level mutable flags, and the blocking
read loop is modelled as a function over the finite trace of read results it
consumes, returning the trace of externally visible actions it performs.
-/

/-- Kinds of Python exceptions the embedded code can raise.
ValueError models a failing int(...) conversion or an out-of-range byte in
bytes(...); IndexError models an out-of-bounds list subscript;
AttributeError models access to a missing class attribute; exceptionMsg
models a plain Exception raised with a message string. -/
inductive PyError where
  | valueError
  | indexError
  | attributeError
  | exceptionMsg (message : String)
deriving DecidableEq

deriving instance DecidableEq for Except

/-- Python list subscript msg[i]: the element at i, or IndexError when i is
out of bounds. -/
def pyIndex (xs : List Nat) (i : Nat) : Except PyError Nat :=
  match xs.get? i with
  | some b => Except.ok b
  | none => Except.error PyError.indexError

/-- Python int(bool): True becomes 1, False becomes 0. -/
def pyBoolInt (b : Bool) : Nat := if b then 1 else 0

/-- NovaProWireless.MSGLEN: HID message length. -/
def MSGLEN : Nat := 63

/-- NovaProWireless.READ_TIMEOUT: per-read timeout in milliseconds. -/
def READ_TIMEOUT : Nat := 1000

/-- NovaProWireless.TX: first byte value for data sent to the base station. -/
def TX : Nat := 0x6

/-- NovaProWireless.RX: first byte value for data from the base station. -/
def RX : Nat := 0x7

/-- NovaProWireless.OPT_SONAR_ICON opcode. -/
def OPT_SONAR_ICON : Nat := 0x8D

/-- NovaProWireless.OPT_CHATMIX_ENABLE opcode. -/
def OPT_CHATMIX_ENABLE : Nat := 0x49

/-- NovaProWireless.OPT_VOLUME opcode. -/
def OPT_VOLUME : Nat := 0x25

/-- NovaProWireless.OPT_CHATMIX opcode. -/
def OPT_CHATMIX : Nat := 0x45

/-- NovaProWireless.OPT_EQ opcode. -/
def OPT_EQ : Nat := 0x31

/-- NovaProWireless.OPT_EQ_PRESET opcode. -/
def OPT_EQ_PRESET : Nat := 0x2E

/-- NovaProWireless._create_msgdata: bytes(data).ljust(MSGLEN, zero byte).
The bytes(...) constructor raises ValueError when an element is not in
0..255; str.ljust pads with zeros up to MSGLEN but neither truncates nor
fails when the data is already longer than MSGLEN (Nat subtraction makes the
padding empty in that case, exactly as ljust behaves). -/
def create_msgdata (data : List Nat) : Except PyError (List Nat) :=
  if data.all (fun b => b < 256) then
    Except.ok (data ++ List.replicate (MSGLEN - data.length) 0)
  else Except.error PyError.valueError

/-- One iteration body of NovaProWireless.chatmix_volume_control for one read
result msg: if not msg or msg[1] is not OPT_CHATMIX, no volume call happens
(continue); otherwise gamevol = msg[2] and chatvol = msg[3] are read and
chatmix.set_volumes(gamevol, chatvol) is invoked once. The returned list
holds the (gamevol, chatvol) arguments of the set_volumes calls performed for
this read result, in order; subscripts are evaluated in Python order, so the
emptiness test short-circuits before msg[1], and msg[2], msg[3] are only
evaluated after the opcode matched. (msg[1] is compared with the Python
identity test, which coincides with equality on the interned byte values
involved.) -/
def chatmixStepE (msg : List Nat) : Except PyError (List (Nat × Nat)) :=
  if msg.isEmpty then Except.ok []
  else
    match pyIndex msg 1 with
    | Except.error e => Except.error e
    | Except.ok b1 =>
      if b1 ≠ OPT_CHATMIX then Except.ok []
      else
        match pyIndex msg 2 with
        | Except.error e => Except.error e
        | Except.ok gamevol =>
          match pyIndex msg 3 with
          | Except.error e => Except.error e
          | Except.ok chatvol => Except.ok [(gamevol, chatvol)]

/-- The classification a frame receives in NovaProWireless.print_output:
one constructor per case of the match on msg[1], carrying the further bytes
that case reads. The catch-all case prints a fixed unknown-message line; the
unknown constructor records the scrutinee byte it matched on. -/
inductive MsgKind where
  | volume (attenuation : Nat)
  | chatmixLevels (game chat : Nat)
  | eqBand (bar value : Nat)
  | eqPreset (preset : Nat)
  | unknown (raw : Nat)
deriving DecidableEq

/-- The match statement of NovaProWireless.print_output applied to one read
result: msg[1] selects the message kind, and each branch reads the payload
bytes it prints. Python evaluates msg[1] unconditionally, so an empty read
result raises IndexError here. -/
def classify_output (msg : List Nat) : Except PyError MsgKind :=
  match pyIndex msg 1 with
  | Except.error e => Except.error e
  | Except.ok b1 =>
    if b1 = OPT_VOLUME then
      match pyIndex msg 2 with
      | Except.error e => Except.error e
      | Except.ok b2 => Except.ok (MsgKind.volume b2)
    else if b1 = OPT_CHATMIX then
      match pyIndex msg 2 with
      | Except.error e => Except.error e
      | Except.ok b2 =>
        match pyIndex msg 3 with
        | Except.error e => Except.error e
        | Except.ok b3 => Except.ok (MsgKind.chatmixLevels b2 b3)
    else if b1 = OPT_EQ then
      match pyIndex msg 2 with
      | Except.error e => Except.error e
      | Except.ok b2 =>
        match pyIndex msg 3 with
        | Except.error e => Except.error e
        | Except.ok b3 => Except.ok (MsgKind.eqBand b2 b3)
    else if b1 = OPT_EQ_PRESET then
      match pyIndex msg 2 with
      | Except.error e => Except.error e
      | Except.ok b2 => Except.ok (MsgKind.eqPreset b2)
    else Except.ok (MsgKind.unknown b1)

/-- The NovaProWireless class-level mutable flags that the setters, the read
loop and the signal handler touch. -/
structure SessionState where
  CHATMIX_CONTROLS_ENABLED : Bool
  SONAR_ICON_ENABLED : Bool
  CLOSE : Bool
deriving DecidableEq

/-- The class attribute defaults: both feature flags and the stop flag start
out False. -/
def initialState : SessionState :=
  { CHATMIX_CONTROLS_ENABLED := false, SONAR_ICON_ENABLED := false,
    CLOSE := false }

/-- NovaProWireless.set_chatmix_controls: writes the TX frame for
OPT_CHATMIX_ENABLE with payload int(state) and then sets
CHATMIX_CONTROLS_ENABLED to state before returning. The pair holds the
updated flags and the frame handed to dev.write. -/
def set_chatmix_controls (s : SessionState) (state : Bool) :
    SessionState × Except PyError (List Nat) :=
  ({ s with CHATMIX_CONTROLS_ENABLED := state },
   create_msgdata [TX, OPT_CHATMIX_ENABLE, pyBoolInt state])

/-- NovaProWireless.set_sonar_icon: writes the TX frame for OPT_SONAR_ICON
with payload int(state) and then sets SONAR_ICON_ENABLED to state. -/
def set_sonar_icon (s : SessionState) (state : Bool) :
    SessionState × Except PyError (List Nat) :=
  ({ s with SONAR_ICON_ENABLED := state },
   create_msgdata [TX, OPT_SONAR_ICON, pyBoolInt state])

/-- NovaProWireless.set_volume: writes the TX frame for OPT_VOLUME with the
attenuation payload; it touches no flag, so the state comes back unchanged. -/
def set_volume (s : SessionState) (attenuation : Nat) :
    SessionState × Except PyError (List Nat) :=
  (s, create_msgdata [TX, OPT_VOLUME, attenuation])

/-- NovaProWireless.set_eq_preset: writes the TX frame for OPT_EQ_PRESET with
the preset payload; it touches no flag. -/
def set_eq_preset (s : SessionState) (preset : Nat) :
    SessionState × Except PyError (List Nat) :=
  (s, create_msgdata [TX, OPT_EQ_PRESET, preset])

/-- One result of dev.read in the loop: either a byte list (empty on
timeout) or an OSError raised by the transport (device disconnected). -/
inductive ReadResult where
  | msg (m : List Nat)
  | oserr
deriving DecidableEq

/-- Externally visible effects of the control loop and of the signal
handler: a paired ChatMix.set_volumes call, the disconnect print, the two
feature-disable writes performed by close, and ChatMix.close (termination of
both virtual sink processes). -/
inductive LoopAction where
  | setVolumes (game chat : Nat)
  | printDisconnected
  | sendDisableChatmix
  | sendDisableSonar
  | teardown
deriving DecidableEq

/-- NovaProWireless.chatmix_volume_control run over a finite trace of read
results: while not CLOSE, each read result is handled by the loop body
(chatmixStepE); an OSError prints the disconnect line and sets CLOSE, after
which the while condition fails and chatmix.close() tears the sinks down.
Returns none when the supplied trace runs out with the loop still running,
and propagates an uncaught IndexError (which would skip chatmix.close()). -/
def loopRun : SessionState → List ReadResult →
    Except PyError (Option (SessionState × List LoopAction))
  | s, [] =>
    if s.CLOSE then Except.ok (some (s, [LoopAction.teardown]))
    else Except.ok none
  | s, ReadResult.oserr :: _ =>
    if s.CLOSE then Except.ok (some (s, [LoopAction.teardown]))
    else
      Except.ok (some ({ s with CLOSE := true },
                       [LoopAction.printDisconnected, LoopAction.teardown]))
  | s, ReadResult.msg m :: rest =>
    if s.CLOSE then Except.ok (some (s, [LoopAction.teardown]))
    else
      match chatmixStepE m with
      | Except.error e => Except.error e
      | Except.ok calls =>
        match loopRun s rest with
        | Except.error e => Except.error e
        | Except.ok none => Except.ok none
        | Except.ok (some (s2, acts)) =>
          Except.ok (some (s2,
            calls.map (fun gc => LoopAction.setVolumes gc.1 gc.2) ++ acts))

/-- NovaProWireless.close (the SIGINT/SIGTERM handler): sets CLOSE, then
sends the chatmix-controls disable iff CHATMIX_CONTROLS_ENABLED (which the
setter resets to False) and the sonar-icon disable iff SONAR_ICON_ENABLED.
Returns the final flags and the disable writes performed, in order. -/
def closeHandler (s : SessionState) : SessionState × List LoopAction :=
  let s1 : SessionState := { s with CLOSE := true }
  let p2 : SessionState × List LoopAction :=
    if s1.CHATMIX_CONTROLS_ENABLED then
      ({ s1 with CHATMIX_CONTROLS_ENABLED := false },
       [LoopAction.sendDisableChatmix])
    else (s1, [])
  let p3 : SessionState × List LoopAction :=
    if p2.1.SONAR_ICON_ENABLED then
      ({ p2.1 with SONAR_ICON_ENABLED := false }, [LoopAction.sendDisableSonar])
    else (p2.1, [])
  (p3.1, p2.2 ++ p3.2)

/-- Python str.split(sep) for a one-character separator, over the character
list of the string: splits at every occurrence of sep, keeping empty
segments, and yields one (possibly empty) segment even for the empty string.
Both call sites in the source split on a single character (tab, space). -/
def pySplitChar (sep : Char) : List Char → List (List Char)
  | [] => [[]]
  | c :: rest =>
    let r := pySplitChar sep rest
    if c = sep then [] :: r
    else
      match r with
      | [] => [[c]]
      | seg :: segs => (c :: seg) :: segs

/-- Python str.split(sep) on strings, for a one-character separator. -/
def pySplit (s : String) (sep : Char) : List String :=
  (pySplitChar sep s.data).map (fun cs => String.mk cs)

/-- Python int(str) restricted to what the source feeds it: an optional
sign followed by ASCII digits converts, anything else raises ValueError
(surrounding-whitespace stripping and digit-group underscores are omitted;
no call site produces them). -/
def pyInt (s : String) : Except PyError Int :=
  let signed : Bool × List Char :=
    match s.data with
    | '-' :: rest => (true, rest)
    | '+' :: rest => (false, rest)
    | cs => (false, cs)
  if signed.2.isEmpty then Except.error PyError.valueError
  else if signed.2.all Char.isDigit then
    let n : Nat := signed.2.foldl (fun acc c => acc * 10 + (c.toNat - 48)) 0
    Except.ok (if signed.1 then -(n : Int) else (n : Int))
  else Except.error PyError.valueError

/-- Python str slice s[:-2]: drop the last two characters (empty when the
string has at most two). -/
def pySliceDropLast2 (s : String) : String :=
  String.mk s.data.dropLast.dropLast

/-- A parsed pactl sink line, as stored by SinkInfo.__init__. The sink_id
parameter is annotated int in the source but never converted, so the raw
column text is what gets stored; channels and sample_rate are converted with
int(...[:-2]). -/
structure SinkInfo where
  sink_id : String
  name : String
  protocol : String
  sample_format : String
  channels : Int
  sample_rate : Int
  state : String
deriving DecidableEq

/-- SinkInfo._COLUMN_COUNT. -/
def _COLUMN_COUNT : Nat := 5

/-- SinkInfo._COLUMN_INDEX__SINK_ID. -/
def _COLUMN_INDEX__SINK_ID : Nat := 0

/-- SinkInfo._COLUMN_INDEX__NAME. -/
def _COLUMN_INDEX__NAME : Nat := 1

/-- SinkInfo._COLUMN_INDEX__PROTOCOL. -/
def _COLUMN_INDEX__PROTOCOL : Nat := 2

/-- SinkInfo._COLUMN_INDEX__AUDIO_METADATA. -/
def _COLUMN_INDEX__AUDIO_METADATA : Nat := 3

/-- SinkInfo._COLUMN_INDEX__STATE. -/
def _COLUMN_INDEX__STATE : Nat := 4

/-- SinkInfo._METADATA_COLUMN_COUNT. -/
def _METADATA_COLUMN_COUNT : Nat := 3

/-- SinkInfo._METADATA_INDEX__SAMPLE_FORMAT. -/
def _METADATA_INDEX__SAMPLE_FORMAT : Nat := 0

/-- SinkInfo._METADATA_INDEX__CHANNELS. -/
def _METADATA_INDEX__CHANNELS : Nat := 1

/-- SinkInfo._METADATA_INDEX__SAMPLE_RATE. -/
def _METADATA_INDEX__SAMPLE_RATE : Nat := 2

/-- SinkInfo.__init__: stores the five textual columns and converts channels
and sample_rate with int(value[:-2]); a failing conversion is caught as
ValueError and re-raised as a plain Exception whose message names the sink
(the SinkParseError of the design). -/
def SinkInfo.init (sink_id name protocol sample_format channels sample_rate
    state : String) : Except PyError SinkInfo :=
  match pyInt (pySliceDropLast2 channels) with
  | Except.error _ =>
    Except.error (PyError.exceptionMsg
      (String.append "Unable to parse channels for sink " name))
  | Except.ok chNum =>
    match pyInt (pySliceDropLast2 sample_rate) with
    | Except.error _ =>
      Except.error (PyError.exceptionMsg
        (String.append "Unable to parse sample rate for " name))
    | Except.ok srNum =>
      Except.ok { sink_id := sink_id, name := name, protocol := protocol,
                  sample_format := sample_format, channels := chNum,
                  sample_rate := srNum, state := state }

/-- SinkInfo._split_columns: splits the line and compares the column count
with the expected one. On a mismatch the source raises an Exception whose
f-string message interpolates SinkInfo.CMD_ARGUMENTS - an attribute that the
class does not define - so what actually escapes is the AttributeError from
building that message, not the intended column-count Exception. -/
def _split_columns (line : String) (seperator : Char)
    (expected_column_count : Nat) : Except PyError (List String) :=
  let columns := pySplit line seperator
  let column_count := columns.length
  if expected_column_count ≠ column_count then
    Except.error PyError.attributeError
  else Except.ok columns

/-- SinkInfo.from_line: tab-split into five columns, space-split the audio
metadata column into three, then build the SinkInfo from the pieces. The
subscripts are written with a default that is never used, because both
splits were checked for their exact column counts. -/
def SinkInfo.from_line (line : String) : Except PyError SinkInfo :=
  match _split_columns line '\t' _COLUMN_COUNT with
  | Except.error e => Except.error e
  | Except.ok columns =>
    match _split_columns (columns.getD _COLUMN_INDEX__AUDIO_METADATA "") ' '
        _METADATA_COLUMN_COUNT with
    | Except.error e => Except.error e
    | Except.ok metadata_columns =>
      SinkInfo.init (columns.getD _COLUMN_INDEX__SINK_ID "")
        (columns.getD _COLUMN_INDEX__NAME "")
        (columns.getD _COLUMN_INDEX__PROTOCOL "")
        (metadata_columns.getD _METADATA_INDEX__SAMPLE_FORMAT "")
        (metadata_columns.getD _METADATA_INDEX__CHANNELS "")
        (metadata_columns.getD _METADATA_INDEX__SAMPLE_RATE "")
        (columns.getD _COLUMN_INDEX__STATE "")

/-! Helper lemmas shared by the claim theorems. -/

lemma pyIndex_ok (xs : List Nat) (i : Nat) (h : i < xs.length) :
    pyIndex xs i = Except.ok (xs.getD i 0) := by
  simp only [pyIndex, List.get?_eq_getElem?, List.getD_eq_getElem?_getD]
  rw [List.getElem?_eq_getElem h]
  rfl

lemma chatmixStepE_frame (msg : List Nat) (h : msg.length = 63) :
    chatmixStepE msg =
      Except.ok (if msg.getD 1 0 = OPT_CHATMIX
                 then [(msg.getD 2 0, msg.getD 3 0)] else []) := by
  have hne : msg.isEmpty = false := by
    cases msg with
    | nil => simp at h
    | cons a l => rfl
  have h1 := pyIndex_ok msg 1 (by omega)
  have h2 := pyIndex_ok msg 2 (by omega)
  have h3 := pyIndex_ok msg 3 (by omega)
  rw [chatmixStepE, hne]
  simp only [Bool.false_eq_true, if_false, h1, h2, h3]
  split <;> simp_all


lemma create_msgdata_ok (data : List Nat) (h : ∀ b ∈ data, b < 256) :
    create_msgdata data =
      Except.ok (data ++ List.replicate (MSGLEN - data.length) 0) := by
  unfold create_msgdata
  rw [if_pos]
  simp only [List.all_eq_true, decide_eq_true_eq]
  exact h

lemma create_msgdata_cons_cons (dir op : Nat) (payload : List Nat)
    (hdir : dir < 256) (hop : op < 256) (hp : ∀ b ∈ payload, b < 256) :
    create_msgdata (dir :: op :: payload) =
      Except.ok (dir :: op ::
        (payload ++ List.replicate (61 - payload.length) 0)) := by
  have h : ∀ b ∈ dir :: op :: payload, b < 256 := by
    intro b hb
    simp only [List.mem_cons] at hb
    rcases hb with rfl | rfl | hb
    · exact hdir
    · exact hop
    · exact hp b hb
  rw [create_msgdata_ok _ h]
  have hsub : MSGLEN - (dir :: op :: payload).length = 61 - payload.length := by
    simp only [List.length_cons, MSGLEN]
    omega
  rw [hsub]
  rfl

lemma frame_drop_payload (dir op : Nat) (payload pad : List Nat) :
    (dir :: op :: (payload ++ pad)).drop (2 + payload.length) = pad := by
  have hass : dir :: op :: (payload ++ pad) =
      ([dir, op] ++ payload) ++ pad := by simp
  have hlen2 : 2 + payload.length = ([dir, op] ++ payload).length := by
    simp
    omega
  rw [hass, hlen2, List.drop_left]

lemma count_map_setVolumes (calls : List (Nat × Nat)) (a : LoopAction)
    (h : ∀ g c, a ≠ LoopAction.setVolumes g c) :
    (calls.map (fun gc => LoopAction.setVolumes gc.1 gc.2)).count a = 0 := by
  rw [List.count_eq_zero]
  intro hmem
  simp only [List.mem_map] at hmem
  obtain ⟨gc, _, heq⟩ := hmem
  exact h gc.1 gc.2 heq.symm

lemma loopRun_ok_some (s : SessionState) (reads : List ReadResult) :
    ∀ s2 acts, loopRun s reads = Except.ok (some (s2, acts)) →
      acts.count LoopAction.teardown = 1 ∧
      acts.count LoopAction.sendDisableChatmix = 0 ∧
      acts.count LoopAction.sendDisableSonar = 0 ∧
      s2.CLOSE = true ∧
      s2.CHATMIX_CONTROLS_ENABLED = s.CHATMIX_CONTROLS_ENABLED ∧
      s2.SONAR_ICON_ENABLED = s.SONAR_ICON_ENABLED := by
  induction reads with
  | nil =>
    intro s2 acts h
    rw [loopRun] at h
    by_cases hc : s.CLOSE
    · rw [if_pos hc] at h
      simp only [Except.ok.injEq, Option.some.injEq, Prod.mk.injEq] at h
      obtain ⟨rfl, rfl⟩ := h
      exact ⟨by decide, by decide, by decide, hc, rfl, rfl⟩
    · rw [if_neg hc] at h
      simp at h
  | cons r rest ih =>
    intro s2 acts h
    cases r with
    | oserr =>
      rw [loopRun] at h
      by_cases hc : s.CLOSE
      · rw [if_pos hc] at h
        simp only [Except.ok.injEq, Option.some.injEq, Prod.mk.injEq] at h
        obtain ⟨rfl, rfl⟩ := h
        exact ⟨by decide, by decide, by decide, hc, rfl, rfl⟩
      · rw [if_neg hc] at h
        simp only [Except.ok.injEq, Option.some.injEq, Prod.mk.injEq] at h
        obtain ⟨rfl, rfl⟩ := h
        exact ⟨by decide, by decide, by decide, rfl, rfl, rfl⟩
    | msg m =>
      rw [loopRun] at h
      by_cases hc : s.CLOSE
      · rw [if_pos hc] at h
        simp only [Except.ok.injEq, Option.some.injEq, Prod.mk.injEq] at h
        obtain ⟨rfl, rfl⟩ := h
        exact ⟨by decide, by decide, by decide, hc, rfl, rfl⟩
      · rw [if_neg hc] at h
        cases hcs : chatmixStepE m with
        | error e => rw [hcs] at h; simp at h
        | ok calls =>
          rw [hcs] at h
          cases hrec : loopRun s rest with
          | error e => rw [hrec] at h; simp at h
          | ok o =>
            cases o with
            | none => rw [hrec] at h; simp at h
            | some p =>
              obtain ⟨s3, acts3⟩ := p
              rw [hrec] at h
              simp only [Except.ok.injEq, Option.some.injEq,
                Prod.mk.injEq] at h
              obtain ⟨rfl, rfl⟩ := h
              have hrest := ih s3 acts3 hrec
              have hz1 := count_map_setVolumes calls LoopAction.teardown
                (by intro g c hcon; cases hcon)
              have hz2 := count_map_setVolumes calls
                LoopAction.sendDisableChatmix (by intro g c hcon; cases hcon)
              have hz3 := count_map_setVolumes calls
                LoopAction.sendDisableSonar (by intro g c hcon; cases hcon)
              refine ⟨?_, ?_, ?_, hrest.2.2.2.1, hrest.2.2.2.2.1,
                hrest.2.2.2.2.2⟩
              · rw [List.count_append, hz1, hrest.1]
              · rw [List.count_append, hz2, hrest.2.1]
              · rw [List.count_append, hz3, hrest.2.2.1]

/-! Claim theorems. -/

/-- C1: for every read result that is either empty (timeout) or a full
63-byte frame, the loop body performs exactly one paired set_volumes call
with (game = frame byte 2, chat = frame byte 3) precisely when the result is
a non-empty frame whose byte 1 is the ChatMix opcode, and performs no call
otherwise; the two payload bytes are forwarded unmodified, whatever their
values. -/
theorem C1_chatmix_step_volumes_iff (msg : List Nat)
    (h : msg = [] ∨ msg.length = 63) :
    chatmixStepE msg =
      Except.ok (if msg ≠ [] ∧ msg.getD 1 0 = OPT_CHATMIX
                 then [(msg.getD 2 0, msg.getD 3 0)] else []) := by
  rcases h with rfl | h
  · rfl
  · rw [chatmixStepE_frame msg h]
    have hne : msg ≠ [] := by
      intro e
      rw [e] at h
      simp at h
    simp [hne]

/-- C1 witness: a ChatMix RX frame with payload bytes (70, 30) yields
exactly one set_volumes call with game 70 and chat 30. -/
theorem C1_chatmix_step_volumes_iff_witness :
    chatmixStepE (7 :: 69 :: 70 :: 30 :: List.replicate 59 0) =
      Except.ok (if (7 :: 69 :: 70 :: 30 :: List.replicate 59 0) ≠ ([] : List Nat) ∧
                    (7 :: 69 :: 70 :: 30 :: List.replicate 59 0).getD 1 0 = OPT_CHATMIX
                 then [((7 :: 69 :: 70 :: 30 :: List.replicate 59 0).getD 2 0,
                        (7 :: 69 :: 70 :: 30 :: List.replicate 59 0).getD 3 0)]
                 else []) :=
  C1_chatmix_step_volumes_iff (7 :: 69 :: 70 :: 30 :: List.replicate 59 0)
    (Or.inr (by decide))

/-- C10: when every read result is either empty or a full 63-byte frame, the
loop body never raises an IndexError (or any other error): the emptiness
guard short-circuits before byte 1 is read, and bytes 2 and 3 are read only
after byte 1 matched the ChatMix opcode, so all subscripts are in bounds. -/
theorem C10_chatmix_step_in_bounds (msg : List Nat)
    (h : msg = [] ∨ msg.length = 63) (e : PyError) :
    chatmixStepE msg ≠ Except.error e := by
  rcases h with rfl | h
  · intro hc
    simp [chatmixStepE] at hc
  · rw [chatmixStepE_frame msg h]
    intro hc
    simp at hc

/-- C10 witness: on a timeout (empty read result) the loop body raises
nothing, in particular no IndexError. -/
theorem C10_chatmix_step_in_bounds_witness :
    chatmixStepE [] ≠ Except.error PyError.indexError :=
  C10_chatmix_step_in_bounds [] (Or.inl rfl) PyError.indexError

set_option maxRecDepth 4000 in
/-- C3 counterexample: the claim quantifies over every payload, but a
62-byte payload makes bytes(data).ljust produce a 64-byte frame - ljust does
not truncate - so the total length is not always MSGLEN = 63. -/
theorem C3_cex_overlong_frame : Except.map List.length
      (create_msgdata (6 :: 37 :: List.replicate 62 0)) = Except.ok 64 ∧
    (64 : Nat) ≠ 63 := by
  constructor
  · decide
  · decide

/-- C3 (amended): for every direction, opcode and payload of byte values
below 256 with payload length at most 61, the encoded frame has total length
exactly MSGLEN = 63, the direction at byte 0, the opcode at byte 1, the
payload from byte 2 on, and every byte after the payload equal to zero. -/
theorem C3_frame_layout (dir op : Nat) (payload : List Nat)
    (hdir : dir < 256) (hop : op < 256) (hp : ∀ b ∈ payload, b < 256)
    (hlen : payload.length ≤ 61) :
    create_msgdata (dir :: op :: payload) =
      Except.ok (dir :: op ::
        (payload ++ List.replicate (61 - payload.length) 0)) ∧
    (dir :: op ::
      (payload ++ List.replicate (61 - payload.length) 0)).length = MSGLEN ∧
    (dir :: op ::
        (payload ++ List.replicate (61 - payload.length) 0)).drop
        (2 + payload.length) =
      List.replicate (61 - payload.length) 0 := by
  refine ⟨create_msgdata_cons_cons dir op payload hdir hop hp, ?_, ?_⟩
  · simp only [List.length_cons, List.length_append, List.length_replicate,
      MSGLEN]
    omega
  · exact frame_drop_payload dir op payload _

/-- C3 witness: direction TX, opcode 0x49, payload [1] encodes to the
63-byte frame 6, 73, 1 followed by 60 zero bytes. -/
theorem C3_frame_layout_witness :
    create_msgdata [6, 73, 1] =
      Except.ok (6 :: 73 :: ([1] ++ List.replicate 60 0)) ∧
    (6 :: 73 :: ([(1 : Nat)] ++ List.replicate 60 0)).length = MSGLEN ∧
    (6 :: 73 :: ([(1 : Nat)] ++ List.replicate 60 0)).drop 3 =
      List.replicate 60 0 :=
  C3_frame_layout 6 73 [1] (by decide) (by decide) (by decide) (by decide)

set_option maxRecDepth 4000 in
/-- C4 counterexample: encoding a 62-byte payload does not fail at all -
there is no PayloadTooLarge anywhere in the source - it just returns the
unpadded 64-byte frame. -/
theorem C4_cex_oversize_payload_succeeds :
    create_msgdata (6 :: 37 :: List.replicate 62 0) =
      Except.ok (6 :: 37 :: List.replicate 62 0) := by
  decide

/-- C4 (amended): encode never fails on a long payload: for every payload of
at least 61 in-range bytes the frame comes back as the raw data with no
padding, so a payload of exactly 61 bytes fills the 63-byte frame completely
and a longer payload silently yields an over-long frame of length
payload + 2 instead of an error. -/
theorem C4_oversize_payload_behaviour (dir op : Nat) (payload : List Nat)
    (hdir : dir < 256) (hop : op < 256) (hp : ∀ b ∈ payload, b < 256)
    (hlen : 61 ≤ payload.length) :
    create_msgdata (dir :: op :: payload) =
      Except.ok (dir :: op :: payload) ∧
    (dir :: op :: payload).length = payload.length + 2 := by
  constructor
  · have hfull := create_msgdata_cons_cons dir op payload hdir hop hp
    have hz : 61 - payload.length = 0 := by omega
    rw [hz] at hfull
    simpa using hfull
  · simp

/-- C4 witness: a payload of exactly 61 bytes encodes successfully into a
completely filled frame of 63 bytes. -/
theorem C4_oversize_payload_behaviour_witness :
    create_msgdata (6 :: 37 :: List.replicate 61 5) =
      Except.ok (6 :: 37 :: List.replicate 61 5) ∧
    (6 :: 37 :: List.replicate 61 5).length = (List.replicate 61 5).length + 2 :=
  C4_oversize_payload_behaviour 6 37 (List.replicate 61 5) (by decide)
    (by decide) (by decide) (by decide)

/-- C5: for every known opcode and every in-range payload of at most 61
bytes, the encoded frame decodes back to the same opcode at byte 1 and the
same payload bytes from byte 2 on, and all its padding bytes are zero. -/
theorem C5_encode_decode_roundtrip (dir op : Nat) (payload : List Nat)
    (hop : op ∈ [OPT_SONAR_ICON, OPT_CHATMIX_ENABLE, OPT_VOLUME, OPT_CHATMIX,
                 OPT_EQ, OPT_EQ_PRESET])
    (hdir : dir < 256) (hp : ∀ b ∈ payload, b < 256)
    (_hlen : payload.length ≤ 61) :
    create_msgdata (dir :: op :: payload) =
      Except.ok (dir :: op ::
        (payload ++ List.replicate (61 - payload.length) 0)) ∧
    (dir :: op ::
      (payload ++ List.replicate (61 - payload.length) 0)).getD 1 0 = op ∧
    ((dir :: op ::
        (payload ++ List.replicate (61 - payload.length) 0)).drop 2).take
        payload.length = payload ∧
    (dir :: op ::
        (payload ++ List.replicate (61 - payload.length) 0)).drop
        (2 + payload.length) =
      List.replicate (61 - payload.length) 0 := by
  have hop256 : op < 256 := by
    simp only [List.mem_cons, List.not_mem_nil, or_false, OPT_SONAR_ICON,
      OPT_CHATMIX_ENABLE, OPT_VOLUME, OPT_CHATMIX, OPT_EQ,
      OPT_EQ_PRESET] at hop
    rcases hop with rfl | rfl | rfl | rfl | rfl | rfl <;> decide
  refine ⟨create_msgdata_cons_cons dir op payload hdir hop256 hp, rfl, ?_,
    frame_drop_payload dir op payload _⟩
  have hdrop2 : (dir :: op ::
      (payload ++ List.replicate (61 - payload.length) 0)).drop 2 =
      payload ++ List.replicate (61 - payload.length) 0 := rfl
  rw [hdrop2, List.take_left]

/-- C6: a full frame whose byte 1 lies outside the known opcode set is
classified as the unknown kind - the catch-all case of the match, carrying
the scrutinee byte - and the classification never raises an error. -/
theorem C6_unknown_opcode_never_fails (msg : List Nat)
    (hlen : msg.length = 63)
    (hop : msg.getD 1 0 ∉ [OPT_SONAR_ICON, OPT_CHATMIX_ENABLE, OPT_VOLUME,
                           OPT_CHATMIX, OPT_EQ, OPT_EQ_PRESET]) :
    classify_output msg = Except.ok (MsgKind.unknown (msg.getD 1 0)) := by
  have h1 := pyIndex_ok msg 1 (by omega)
  simp only [List.mem_cons, List.not_mem_nil, or_false, not_or] at hop
  obtain ⟨hn1, hn2, hn3, hn4, hn5, hn6⟩ := hop
  rw [classify_output, h1]
  simp only [if_neg hn3, if_neg hn4, if_neg hn5, if_neg hn6]

/-- C6 witness: byte 1 value 0xFF is outside the known opcode set and
classifies as unknown 0xFF without an error. -/
theorem C6_unknown_opcode_never_fails_witness :
    classify_output (7 :: 255 :: List.replicate 61 0) =
      Except.ok (MsgKind.unknown
        ((7 :: 255 :: List.replicate 61 0).getD 1 0)) :=
  C6_unknown_opcode_never_fails (7 :: 255 :: List.replicate 61 0) (by decide)
    (by decide)

/-- C7 counterexample: for the discovery line whose metadata segment is
s16le 2ch (rate missing), from_line fails with the AttributeError coming
from the broken error-message construction in _split_columns (it
interpolates the nonexistent SinkInfo.CMD_ARGUMENTS), not with a parse
error naming the sink - refuting both the error kind and the claim that no
other kind of error can occur. -/
theorem C7_cex_malformed_metadata :
    SinkInfo.from_line "42\tMySink\tPROTOCOL\ts16le 2ch\tRUNNING" =
      Except.error PyError.attributeError := by decide

/-- C7 (amended): for every discovery line with exactly five tab-separated
columns whose metadata segment does not have exactly three space-separated
fields, discovery fails - but with the AttributeError raised while building
the column-count message (which references the missing
SinkInfo.CMD_ARGUMENTS attribute), not with a parse error naming the
offending sink. -/
theorem C7_malformed_metadata_attribute_error (line : String)
    (h5 : (pySplit line '\t').length = 5)
    (hm : (pySplit ((pySplit line '\t').getD 3 "") ' ').length ≠ 3) :
    SinkInfo.from_line line = Except.error PyError.attributeError := by
  rw [SinkInfo.from_line, _split_columns]
  simp only [_COLUMN_COUNT, h5, if_neg, ne_eq, not_true_eq_false,
    if_false]
  rw [_split_columns]
  simp only [_METADATA_COLUMN_COUNT, _COLUMN_INDEX__AUDIO_METADATA]
  rw [if_pos]
  omega

/-- C7 witness: a four-field metadata segment also triggers the
AttributeError path. -/
theorem C7_malformed_metadata_attribute_error_witness :
    SinkInfo.from_line "42\tMySink\tPROTOCOL\ts16le 2ch 48000Hz x\tRUNNING" =
      Except.error PyError.attributeError :=
  C7_malformed_metadata_attribute_error
    "42\tMySink\tPROTOCOL\ts16le 2ch 48000Hz x\tRUNNING" (by decide)
    (by decide)

/-- C8: the well-formed discovery line parses to a descriptor with the id
column 42, name MySink, sample format s16le, channel count 2 and sample
rate 48000, the last two parsed as (positive) integers from 2ch and
48000Hz. -/
theorem C8_wellformed_line_parses :
    SinkInfo.from_line "42\tMySink\tPROTOCOL\ts16le 2ch 48000Hz\tRUNNING" =
      Except.ok { sink_id := "42", name := "MySink", protocol := "PROTOCOL",
                  sample_format := "s16le", channels := 2,
                  sample_rate := 48000, state := "RUNNING" } ∧
    (0 : Int) < 2 ∧ (0 : Int) < 48000 := by
  refine ⟨by decide, by decide, by decide⟩

/-- C2 counterexample: with both feature flags enabled, a device
disconnection (OSError) while running makes the loop exit after the
disconnect print and a single sink teardown; no disable message for either
feature appears in the performed actions, contradicting the claimed full
Stopping sequence. -/
theorem C2_cex_disconnect_skips_disables :
    loopRun (SessionState.mk true true false) [ReadResult.oserr] =
      Except.ok (some (SessionState.mk true true true,
        [LoopAction.printDisconnected, LoopAction.teardown])) ∧
    LoopAction.sendDisableChatmix ∉
      [LoopAction.printDisconnected, LoopAction.teardown] ∧
    LoopAction.sendDisableSonar ∉
      [LoopAction.printDisconnected, LoopAction.teardown] := by
  refine ⟨by decide, by decide, by decide⟩

/-- C2 (amended): when a disconnection ends the control loop, the loop sets
the stop flag and exits having torn down the virtual sinks exactly once and
having sent no disable message at all - the disable messages are sent only
by the signal-handler close, and there one per feature whose enabled flag is
set, with no sink teardown of its own. -/
theorem C2_disconnect_teardown_without_disables :
    (∀ s reads s2 acts,
       loopRun s reads = Except.ok (some (s2, acts)) →
       acts.count LoopAction.teardown = 1 ∧
       acts.count LoopAction.sendDisableChatmix = 0 ∧
       acts.count LoopAction.sendDisableSonar = 0 ∧
       s2.CLOSE = true) ∧
    (∀ s, (closeHandler s).2.count LoopAction.sendDisableChatmix =
            (if s.CHATMIX_CONTROLS_ENABLED then 1 else 0) ∧
          (closeHandler s).2.count LoopAction.sendDisableSonar =
            (if s.SONAR_ICON_ENABLED then 1 else 0) ∧
          (closeHandler s).2.count LoopAction.teardown = 0 ∧
          (closeHandler s).1.CLOSE = true) := by
  constructor
  · intro s reads s2 acts h
    have hh := loopRun_ok_some s reads s2 acts h
    exact ⟨hh.1, hh.2.1, hh.2.2.1, hh.2.2.2.1⟩
  · intro s
    rw [closeHandler]
    by_cases h1 : s.CHATMIX_CONTROLS_ENABLED <;>
      by_cases h2 : s.SONAR_ICON_ENABLED <;>
        simp [h1, h2]

/-- C2 witness: from the state with both features enabled, one OSError read
yields exactly one teardown, zero disables and the stop flag set; the
signal-handler close from the same state would send exactly one disable per
feature. -/
theorem C2_disconnect_teardown_without_disables_witness :
    ([LoopAction.printDisconnected, LoopAction.teardown].count
        LoopAction.teardown = 1 ∧
     [LoopAction.printDisconnected, LoopAction.teardown].count
        LoopAction.sendDisableChatmix = 0 ∧
     [LoopAction.printDisconnected, LoopAction.teardown].count
        LoopAction.sendDisableSonar = 0 ∧
     (SessionState.mk true true true).CLOSE = true) ∧
    ((closeHandler (SessionState.mk true true false)).2.count
        LoopAction.sendDisableChatmix =
      (if (SessionState.mk true true false).CHATMIX_CONTROLS_ENABLED
       then 1 else 0) ∧
     (closeHandler (SessionState.mk true true false)).2.count
        LoopAction.sendDisableSonar =
      (if (SessionState.mk true true false).SONAR_ICON_ENABLED
       then 1 else 0) ∧
     (closeHandler (SessionState.mk true true false)).2.count
        LoopAction.teardown = 0 ∧
     (closeHandler (SessionState.mk true true false)).1.CLOSE = true) :=
  ⟨C2_disconnect_teardown_without_disables.1 (SessionState.mk true true false)
      [ReadResult.oserr] (SessionState.mk true true true)
      [LoopAction.printDisconnected, LoopAction.teardown] (by decide),
   C2_disconnect_teardown_without_disables.2 (SessionState.mk true true false)⟩

/-- C9: both feature flags start false; each setter sets exactly its own
flag to the commanded boolean and leaves the other untouched; set_volume,
set_eq_preset and the read loop leave both flags unchanged. -/
theorem C9_feature_flags_discipline :
    (initialState.CHATMIX_CONTROLS_ENABLED = false ∧
     initialState.SONAR_ICON_ENABLED = false) ∧
    (∀ s b, (set_chatmix_controls s b).1.CHATMIX_CONTROLS_ENABLED = b ∧
            (set_chatmix_controls s b).1.SONAR_ICON_ENABLED =
              s.SONAR_ICON_ENABLED) ∧
    (∀ s b, (set_sonar_icon s b).1.SONAR_ICON_ENABLED = b ∧
            (set_sonar_icon s b).1.CHATMIX_CONTROLS_ENABLED =
              s.CHATMIX_CONTROLS_ENABLED) ∧
    (∀ s v, (set_volume s v).1 = s) ∧
    (∀ s p, (set_eq_preset s p).1 = s) ∧
    (∀ s reads s2 acts,
       loopRun s reads = Except.ok (some (s2, acts)) →
       s2.CHATMIX_CONTROLS_ENABLED = s.CHATMIX_CONTROLS_ENABLED ∧
       s2.SONAR_ICON_ENABLED = s.SONAR_ICON_ENABLED) := by
  refine ⟨⟨rfl, rfl⟩, fun s b => ⟨rfl, rfl⟩, fun s b => ⟨rfl, rfl⟩,
    fun s v => rfl, fun s p => rfl, ?_⟩
  intro s reads s2 acts h
  have hh := loopRun_ok_some s reads s2 acts h
  exact ⟨hh.2.2.2.2.1, hh.2.2.2.2.2⟩

/-- C9 witness: running the loop from the initial state through one OSError
read leaves both feature flags at their initial false values. -/
theorem C9_feature_flags_discipline_witness :
    (SessionState.mk false false true).CHATMIX_CONTROLS_ENABLED =
      initialState.CHATMIX_CONTROLS_ENABLED ∧
    (SessionState.mk false false true).SONAR_ICON_ENABLED =
      initialState.SONAR_ICON_ENABLED :=
  C9_feature_flags_discipline.2.2.2.2.2 initialState [ReadResult.oserr]
    (SessionState.mk false false true)
    [LoopAction.printDisconnected, LoopAction.teardown] (by decide)

/-- C5 witness: direction RX, opcode ChatMix, payload [70, 30] round-trips:
byte 1 is the opcode, bytes 2 and 3 are the payload, bytes 4 to 62 are zero
padding. -/
theorem C5_encode_decode_roundtrip_witness :
    create_msgdata [7, 69, 70, 30] =
      Except.ok (7 :: 69 :: ([70, 30] ++ List.replicate 59 0)) ∧
    (7 :: 69 :: ([(70 : Nat), 30] ++ List.replicate 59 0)).getD 1 0 = 69 ∧
    ((7 :: 69 :: ([(70 : Nat), 30] ++ List.replicate 59 0)).drop 2).take 2 =
      [70, 30] ∧
    (7 :: 69 :: ([(70 : Nat), 30] ++ List.replicate 59 0)).drop 4 =
      List.replicate 59 0 :=
  C5_encode_decode_roundtrip 7 69 [70, 30] (by decide) (by decide)
    (by decide) (by decide)
